import Mathlib

/-!
Verification of the table-driven CRC engine in `_crcfunext.c` (crcmod's C
extension).  The ten entry points `_crc8`, `_crc8r`, `_crc16`, `_crc16r`,
`_crc24`, `_crc24r`, `_crc32`, `_crc32r`, `_crc64`, `_crc64r` each parse
`(data, crc, table)`, reject a table whose byte length is not
`256 * entry_byte_size(width)` with a `ValueError "invalid CRC table"`, and
otherwise fold the input bytes through a one-lookup-per-byte recurrence.

Machine integers are modelled as `Nat` with explicit `% 2^w` at each point
where the C code truncates (assignment to a fixed-width variable, the
`& 0xFFFFFF` masks of the 24-bit variants).  The table argument is the raw
byte string the C code receives; the C cast of the byte pointer to a word
pointer is modelled by `tblAt n table i`, which reads the `n` bytes at
offset `n * i` as a little-endian word (the platform the source targets).
-/

/-- The macro `BYTE0(x) = (UINT8)(x)`: bits `[0,7]`. -/
def BYTE0 (x : Nat) : Nat := x % 256

/-- The macro `BYTE1(x) = (UINT8)((x) >> 8)`: bits `[8,15]`. -/
def BYTE1 (x : Nat) : Nat := (x >>> 8) % 256

/-- The macro `BYTE2(x) = (UINT8)((x) >> 16)`: bits `[16,23]`. -/
def BYTE2 (x : Nat) : Nat := (x >>> 16) % 256

/-- The macro `BYTE3(x) = (UINT8)((x) >> 24)`: bits `[24,31]`. -/
def BYTE3 (x : Nat) : Nat := (x >>> 24) % 256

/-- The macro `BYTE7(x) = (UINT8)((x) >> 56)`: bits `[56,63]`. -/
def BYTE7 (x : Nat) : Nat := (x >>> 56) % 256

/-- Value of a byte list read as one little-endian word (each byte taken
mod 256, as the bytes of a C string are). -/
def wordLE : List Nat → Nat
  | [] => 0
  | b :: bs => b % 256 + 256 * wordLE bs

/-- `table[i]` after the C cast of the byte buffer to an `n`-byte word
pointer: the `n` bytes at byte offset `n * i`, read little-endian. -/
def tblAt (n : Nat) (table : List Nat) (i : Nat) : Nat :=
  wordLE ((table.drop (n * i)).take n)

/-- The shared shape of the ten C loops: `while (dataLen--) { crc = step; data++; }`. -/
def crcLoop (step : Nat → Nat → Nat) : List Nat → Nat → Nat
  | [], crc => crc
  | b :: rest, crc => crcLoop step rest (step crc b)

/-- Index expression of `_crc8`'s loop body: `*data ^ crc`. -/
def crc8idx (crc b : Nat) : Nat := b ^^^ crc

/-- Loop body of `_crc8`: `crc = table[*data ^ crc]`. -/
def crc8step (table : List Nat) (crc b : Nat) : Nat := tblAt 1 table (crc8idx crc b)

/-- Index expression of `_crc8r`'s loop body: `*data ^ crc`. -/
def crc8ridx (crc b : Nat) : Nat := b ^^^ crc

/-- Loop body of `_crc8r`: `crc = table[*data ^ crc]`. -/
def crc8rstep (table : List Nat) (crc b : Nat) : Nat := tblAt 1 table (crc8ridx crc b)

/-- Index expression of `_crc16`'s loop body: `*data ^ BYTE1(crc)`. -/
def crc16idx (crc b : Nat) : Nat := b ^^^ BYTE1 crc

/-- Loop body of `_crc16`: `crc = table[*data ^ BYTE1(crc)] ^ (crc << 8)`,
assigned to a `UINT16`. -/
def crc16step (table : List Nat) (crc b : Nat) : Nat :=
  (tblAt 2 table (crc16idx crc b) ^^^ (crc <<< 8)) % 2^16

/-- Index expression of `_crc16r`'s loop body: `*data ^ BYTE0(crc)`. -/
def crc16ridx (crc b : Nat) : Nat := b ^^^ BYTE0 crc

/-- Loop body of `_crc16r`: `crc = table[*data ^ BYTE0(crc)] ^ (crc >> 8)`,
assigned to a `UINT16`. -/
def crc16rstep (table : List Nat) (crc b : Nat) : Nat :=
  (tblAt 2 table (crc16ridx crc b) ^^^ (crc >>> 8)) % 2^16

/-- Index expression of `_crc24`'s loop body: `*data ^ BYTE2(crc)`. -/
def crc24idx (crc b : Nat) : Nat := b ^^^ BYTE2 crc

/-- Loop body of `_crc24`: `crc = table[*data ^ BYTE2(crc)] ^ (crc << 8)`,
assigned to the `UINT32` carrier. -/
def crc24step (table : List Nat) (crc b : Nat) : Nat :=
  (tblAt 4 table (crc24idx crc b) ^^^ (crc <<< 8)) % 2^32

/-- Index expression of `_crc24r`'s loop body: `*data ^ BYTE0(crc)`. -/
def crc24ridx (crc b : Nat) : Nat := b ^^^ BYTE0 crc

/-- Loop body of `_crc24r`: `crc = table[*data ^ BYTE0(crc)] ^ (crc >> 8)`,
assigned to the `UINT32` carrier. -/
def crc24rstep (table : List Nat) (crc b : Nat) : Nat :=
  (tblAt 4 table (crc24ridx crc b) ^^^ (crc >>> 8)) % 2^32

/-- Index expression of `_crc32`'s loop body: `*data ^ BYTE3(crc)`. -/
def crc32idx (crc b : Nat) : Nat := b ^^^ BYTE3 crc

/-- Loop body of `_crc32`: `crc = table[*data ^ BYTE3(crc)] ^ (crc << 8)`,
assigned to a `UINT32`. -/
def crc32step (table : List Nat) (crc b : Nat) : Nat :=
  (tblAt 4 table (crc32idx crc b) ^^^ (crc <<< 8)) % 2^32

/-- Index expression of `_crc32r`'s loop body: `*data ^ BYTE0(crc)`. -/
def crc32ridx (crc b : Nat) : Nat := b ^^^ BYTE0 crc

/-- Loop body of `_crc32r`: `crc = table[*data ^ BYTE0(crc)] ^ (crc >> 8)`,
assigned to a `UINT32`. -/
def crc32rstep (table : List Nat) (crc b : Nat) : Nat :=
  (tblAt 4 table (crc32ridx crc b) ^^^ (crc >>> 8)) % 2^32

/-- Index expression of `_crc64`'s loop body: `*data ^ BYTE7(crc)`. -/
def crc64idx (crc b : Nat) : Nat := b ^^^ BYTE7 crc

/-- Loop body of `_crc64`: `crc = table[*data ^ BYTE7(crc)] ^ (crc << 8)`,
assigned to a `UINT64`. -/
def crc64step (table : List Nat) (crc b : Nat) : Nat :=
  (tblAt 8 table (crc64idx crc b) ^^^ (crc <<< 8)) % 2^64

/-- Index expression of `_crc64r`'s loop body: `*data ^ BYTE0(crc)`. -/
def crc64ridx (crc b : Nat) : Nat := b ^^^ BYTE0 crc

/-- Loop body of `_crc64r`: `crc = table[*data ^ BYTE0(crc)] ^ (crc >> 8)`,
assigned to a `UINT64`. -/
def crc64rstep (table : List Nat) (crc b : Nat) : Nat :=
  (tblAt 8 table (crc64ridx crc b) ^^^ (crc >>> 8)) % 2^64

/-- Entry point `_crc8`: table must be 256 bytes, then fold the loop body. -/
def _crc8 (data : List Nat) (crc : Nat) (table : List Nat) : Except String Nat :=
  if table.length ≠ 256 then .error "invalid CRC table"
  else .ok (crcLoop (crc8step table) data crc)

/-- Entry point `_crc8r` (source identical to `_crc8`). -/
def _crc8r (data : List Nat) (crc : Nat) (table : List Nat) : Except String Nat :=
  if table.length ≠ 256 then .error "invalid CRC table"
  else .ok (crcLoop (crc8rstep table) data crc)

/-- Entry point `_crc16`: table must be `256*2` bytes. -/
def _crc16 (data : List Nat) (crc : Nat) (table : List Nat) : Except String Nat :=
  if table.length ≠ 256 * 2 then .error "invalid CRC table"
  else .ok (crcLoop (crc16step table) data crc)

/-- Entry point `_crc16r`: table must be `256*2` bytes. -/
def _crc16r (data : List Nat) (crc : Nat) (table : List Nat) : Except String Nat :=
  if table.length ≠ 256 * 2 then .error "invalid CRC table"
  else .ok (crcLoop (crc16rstep table) data crc)

/-- Entry point `_crc24`: table must be `256*4` bytes; the 32-bit result is
masked by `& 0xFFFFFF` on return. -/
def _crc24 (data : List Nat) (crc : Nat) (table : List Nat) : Except String Nat :=
  if table.length ≠ 256 * 4 then .error "invalid CRC table"
  else .ok (crcLoop (crc24step table) data crc % 2^24)

/-- Entry point `_crc24r`: table must be `256*4` bytes; the incoming register
is masked by `crc = crc & 0xFFFFFF` before the loop, the result is not. -/
def _crc24r (data : List Nat) (crc : Nat) (table : List Nat) : Except String Nat :=
  if table.length ≠ 256 * 4 then .error "invalid CRC table"
  else .ok (crcLoop (crc24rstep table) data (crc % 2^24))

/-- Entry point `_crc32`: table must be `256*4` bytes. -/
def _crc32 (data : List Nat) (crc : Nat) (table : List Nat) : Except String Nat :=
  if table.length ≠ 256 * 4 then .error "invalid CRC table"
  else .ok (crcLoop (crc32step table) data crc)

/-- Entry point `_crc32r`: table must be `256*4` bytes. -/
def _crc32r (data : List Nat) (crc : Nat) (table : List Nat) : Except String Nat :=
  if table.length ≠ 256 * 4 then .error "invalid CRC table"
  else .ok (crcLoop (crc32rstep table) data crc)

/-- Entry point `_crc64`: table must be `256*8` bytes. -/
def _crc64 (data : List Nat) (crc : Nat) (table : List Nat) : Except String Nat :=
  if table.length ≠ 256 * 8 then .error "invalid CRC table"
  else .ok (crcLoop (crc64step table) data crc)

/-- Entry point `_crc64r`: table must be `256*8` bytes. -/
def _crc64r (data : List Nat) (crc : Nat) (table : List Nat) : Except String Nat :=
  if table.length ≠ 256 * 8 then .error "invalid CRC table"
  else .ok (crcLoop (crc64rstep table) data crc)

/-- Modelled from the spec: `topByte` extracts bits `[W-8, W-1]` of the
register. -/
def specTopByte (w crc : Nat) : Nat := (crc >>> (w - 8)) % 256

/-- Modelled from the spec: `bottomByte` extracts bits `[0,7]` of the
register. -/
def specBottomByte (crc : Nat) : Nat := crc % 256

/-- Modelled from the spec: one normal-order step
`crc := table[b xor topByte(crc)] xor (crc << 8)`, the shift performed in the
register's native (carrier) width, for width `w` with `n`-byte table entries. -/
def specNormStep (w carrier n : Nat) (table : List Nat) (crc b : Nat) : Nat :=
  (tblAt n table (b ^^^ specTopByte w crc) ^^^ (crc <<< 8)) % 2^carrier

/-- Modelled from the spec: the normal-order recurrence folded over the input
bytes in order. -/
def specNormUpdate (w carrier n : Nat) (table data : List Nat) (crc : Nat) : Nat :=
  crcLoop (specNormStep w carrier n table) data crc

/-- Modelled from the spec: one reflected-order step
`crc := table[b xor bottomByte(crc)] xor (crc >> 8)` in the register's native
(carrier) width, for `n`-byte table entries. -/
def specReflStep (carrier n : Nat) (table : List Nat) (crc b : Nat) : Nat :=
  (tblAt n table (b ^^^ specBottomByte crc) ^^^ (crc >>> 8)) % 2^carrier

/-- Modelled from the spec: the reflected-order recurrence folded over the
input bytes in order. -/
def specReflUpdate (carrier n : Nat) (table data : List Nat) (crc : Nat) : Nat :=
  crcLoop (specReflStep carrier n table) data crc

/-- `crcLoop` instrumented with an iteration counter: returns the final
register together with the number of loop iterations performed. -/
def crcLoopCount (step : Nat → Nat → Nat) : List Nat → Nat → Nat × Nat
  | [], crc => (crc, 0)
  | b :: rest, crc =>
    let r := crcLoopCount step rest (step crc b)
    (r.1, r.2 + 1)

/-- `crcLoop` instrumented to record every table index the loop computes, in
order of access. -/
def crcLoopIdx (step idx : Nat → Nat → Nat) : List Nat → Nat → List Nat
  | [], _ => []
  | b :: rest, crc => idx crc b :: crcLoopIdx step idx rest (step crc b)

/-- A table built entirely of zero bytes except entry 0, whose top byte is 1:
the 32-bit word at offset 0 is `0x01000000` (little-endian bytes `0,0,0,1`). -/
def badTable : List Nat := [0, 0, 0, 1] ++ List.replicate 1020 0

theorem except_bind_ok {α β : Type} (a : α) (f : α → Except String β) :
    (Except.ok a : Except String α).bind f = f a := rfl

theorem except_bind_error {α β : Type} (e : String) (f : α → Except String β) :
    (Except.error e : Except String α).bind f = Except.error e := rfl

theorem xor_mod_two_pow (a b n : Nat) :
    (a ^^^ b) % 2^n = (a % 2^n) ^^^ (b % 2^n) := by
  apply Nat.eq_of_testBit_eq
  intro i
  by_cases h : i < n <;>
    simp [Nat.testBit_mod_two_pow, Nat.testBit_xor, h]

theorem crcLoop_append (step : Nat → Nat → Nat) (A B : List Nat) (crc : Nat) :
    crcLoop step (A ++ B) crc = crcLoop step B (crcLoop step A crc) := by
  induction A generalizing crc with
  | nil => rfl
  | cons b rest ih => simp [crcLoop, ih]

theorem wordLE_lt (l : List Nat) : wordLE l < 256 ^ l.length := by
  induction l with
  | nil => simp [wordLE]
  | cons b bs ih =>
    simp only [wordLE, List.length_cons, pow_succ]
    have hb : b % 256 < 256 := Nat.mod_lt _ (by norm_num)
    omega

theorem tblAt_lt (n : Nat) (t : List Nat) (i : Nat) : tblAt n t i < 2^(8*n) := by
  have h := wordLE_lt ((t.drop (n * i)).take n)
  have hlen : ((t.drop (n * i)).take n).length ≤ n := by
    simp [List.length_take]
  have hpow : (256:Nat) ^ ((t.drop (n * i)).take n).length ≤ 256 ^ n :=
    Nat.pow_le_pow_right (by norm_num) hlen
  have h2 : wordLE ((t.drop (n * i)).take n) < 256 ^ n := lt_of_lt_of_le h hpow
  have he : (256:Nat)^n = 2^(8*n) := by
    rw [show (256:Nat) = 2^8 by norm_num, ← pow_mul]
  rw [tblAt, ← he]
  exact h2

theorem BYTE2_eq_mod (x : Nat) : BYTE2 x = x % 2^24 / 2^16 := by
  rw [BYTE2, Nat.shiftRight_eq_div_pow]
  rw [show (256:Nat) = 2^8 by norm_num]
  rw [show (2:Nat)^24 = 2^16 * 2^8 by norm_num]
  exact (Nat.mod_mul_right_div_self x (2^16) (2^8)).symm

theorem shiftLeft8_mod24 (x : Nat) : (x <<< 8) % 2^24 = x % 2^16 * 2^8 := by
  rw [Nat.shiftLeft_eq]
  rw [show (2:Nat)^24 = 2^16 * 2^8 by norm_num]
  exact Nat.mul_mod_mul_right (2^8) x (2^16)

theorem crc24step_mod_congr (table : List Nat) {c c' : Nat}
    (h : c % 2^24 = c' % 2^24) (b : Nat) :
    crc24step table c b % 2^24 = crc24step table c' b % 2^24 := by
  have hidx : crc24idx c b = crc24idx c' b := by
    rw [crc24idx, crc24idx, BYTE2_eq_mod, BYTE2_eq_mod, h]
  rw [crc24step, crc24step, hidx]
  rw [Nat.mod_mod_of_dvd _ (by norm_num : (2:Nat)^24 ∣ 2^32),
      Nat.mod_mod_of_dvd _ (by norm_num : (2:Nat)^24 ∣ 2^32)]
  rw [xor_mod_two_pow, xor_mod_two_pow, shiftLeft8_mod24, shiftLeft8_mod24]
  have h16 : c % 2^16 = c' % 2^16 := by
    rw [← Nat.mod_mod_of_dvd c (by norm_num : (2:Nat)^16 ∣ 2^24),
        ← Nat.mod_mod_of_dvd c' (by norm_num : (2:Nat)^16 ∣ 2^24), h]
  rw [h16]

theorem crc24loop_mod (table : List Nat) :
    ∀ (data : List Nat) (c c' : Nat), c % 2^24 = c' % 2^24 →
      crcLoop (crc24step table) data c % 2^24 = crcLoop (crc24step table) data c' % 2^24 := by
  intro data
  induction data with
  | nil => intro c c' h; exact h
  | cons b rest ih =>
    intro c c' h
    simp only [crcLoop]
    exact ih _ _ (crc24step_mod_congr table h b)

theorem crc24rloop_lt (table : List Nat) (hT : ∀ i, tblAt 4 table i < 2^24) :
    ∀ (data : List Nat) (c : Nat), c < 2^24 → crcLoop (crc24rstep table) data c < 2^24 := by
  intro data
  induction data with
  | nil => intro c hc; exact hc
  | cons b rest ih =>
    intro c hc
    simp only [crcLoop]
    apply ih
    rw [crc24rstep]
    have he := hT (crc24ridx c b)
    have hs : c >>> 8 < 2^24 :=
      lt_of_le_of_lt (by rw [Nat.shiftRight_eq_div_pow]; exact Nat.div_le_self _ _) hc
    have hx : tblAt 4 table (crc24ridx c b) ^^^ (c >>> 8) < 2^24 :=
      Nat.xor_lt_two_pow he hs
    rw [Nat.mod_eq_of_lt (lt_trans hx (by norm_num))]
    exact hx

theorem wordLE_replicate_zero (k : Nat) : wordLE (List.replicate k 0) = 0 := by
  induction k with
  | zero => rfl
  | succ n ih => simp [List.replicate, wordLE, ih]

theorem tblAt_replicate_zero (n m i : Nat) : tblAt n (List.replicate m 0) i = 0 := by
  rw [tblAt, List.drop_replicate, List.take_replicate]
  exact wordLE_replicate_zero _

theorem crc16step_eq_specNorm (t : List Nat) : crc16step t = specNormStep 16 16 2 t := by
  funext crc b
  simp [crc16step, specNormStep, crc16idx, BYTE1, specTopByte]

theorem crc24step_eq_specNorm (t : List Nat) : crc24step t = specNormStep 24 32 4 t := by
  funext crc b
  simp [crc24step, specNormStep, crc24idx, BYTE2, specTopByte]

theorem crc32step_eq_specNorm (t : List Nat) : crc32step t = specNormStep 32 32 4 t := by
  funext crc b
  simp [crc32step, specNormStep, crc32idx, BYTE3, specTopByte]

theorem crc64step_eq_specNorm (t : List Nat) : crc64step t = specNormStep 64 64 8 t := by
  funext crc b
  simp [crc64step, specNormStep, crc64idx, BYTE7, specTopByte]

theorem crc16rstep_eq_specRefl (t : List Nat) : crc16rstep t = specReflStep 16 2 t := by
  funext crc b
  simp [crc16rstep, specReflStep, crc16ridx, BYTE0, specBottomByte]

theorem crc24rstep_eq_specRefl (t : List Nat) : crc24rstep t = specReflStep 32 4 t := by
  funext crc b
  simp [crc24rstep, specReflStep, crc24ridx, BYTE0, specBottomByte]

theorem crc32rstep_eq_specRefl (t : List Nat) : crc32rstep t = specReflStep 32 4 t := by
  funext crc b
  simp [crc32rstep, specReflStep, crc32ridx, BYTE0, specBottomByte]

theorem crc64rstep_eq_specRefl (t : List Nat) : crc64rstep t = specReflStep 64 8 t := by
  funext crc b
  simp [crc64rstep, specReflStep, crc64ridx, BYTE0, specBottomByte]

/-- Claim C1: for each width W in 16, 24, 32, 64, given a table of the valid
byte length, any initial register and any input bytes, the normal-order entry
point returns the fold of `crc := table[b xor topByte(crc)] xor (crc << 8)`
over the input in order, where `topByte` extracts bits `[W-8, W-1]` and the
shift is performed in the register's native width; for W = 24 the result is
masked back to 24 bits. -/
theorem crc_normal_matches_spec (data table : List Nat) (crc : Nat) :
    (table.length = 256 * 2 →
      _crc16 data crc table = .ok (specNormUpdate 16 16 2 table data crc)) ∧
    (table.length = 256 * 4 →
      _crc24 data crc table = .ok (specNormUpdate 24 32 4 table data crc % 2^24)) ∧
    (table.length = 256 * 4 →
      _crc32 data crc table = .ok (specNormUpdate 32 32 4 table data crc)) ∧
    (table.length = 256 * 8 →
      _crc64 data crc table = .ok (specNormUpdate 64 64 8 table data crc)) := by
  refine ⟨fun h => ?_, fun h => ?_, fun h => ?_, fun h => ?_⟩ <;>
    simp [_crc16, _crc24, _crc32, _crc64, h, specNormUpdate,
      crc16step_eq_specNorm, crc24step_eq_specNorm, crc32step_eq_specNorm,
      crc64step_eq_specNorm]

/-- Witness for C1 at concrete inputs. -/
theorem crc_normal_matches_spec_witness :
    _crc16 [1, 2] 5 (List.replicate 512 0) =
      .ok (specNormUpdate 16 16 2 (List.replicate 512 0) [1, 2] 5) ∧
    _crc24 [1, 2] 5 (List.replicate 1024 0) =
      .ok (specNormUpdate 24 32 4 (List.replicate 1024 0) [1, 2] 5 % 2^24) ∧
    _crc32 [1, 2] 5 (List.replicate 1024 0) =
      .ok (specNormUpdate 32 32 4 (List.replicate 1024 0) [1, 2] 5) ∧
    _crc64 [1, 2] 5 (List.replicate 2048 0) =
      .ok (specNormUpdate 64 64 8 (List.replicate 2048 0) [1, 2] 5) :=
  ⟨(crc_normal_matches_spec [1, 2] (List.replicate 512 0) 5).1 (by rw [List.length_replicate]),
   (crc_normal_matches_spec [1, 2] (List.replicate 1024 0) 5).2.1 (by rw [List.length_replicate]),
   (crc_normal_matches_spec [1, 2] (List.replicate 1024 0) 5).2.2.1 (by rw [List.length_replicate]),
   (crc_normal_matches_spec [1, 2] (List.replicate 2048 0) 5).2.2.2 (by rw [List.length_replicate])⟩

/-- Claim C2: for each width W in 16, 24, 32, 64, given a table of the valid
byte length, any initial register and any input bytes, the reflected-order
entry point returns the fold of
`crc := table[b xor bottomByte(crc)] xor (crc >> 8)` over the input in order,
where `bottomByte` extracts bits `[0, 7]` of the register. -/
theorem crc_reflected_matches_spec (data table : List Nat) (crc : Nat) :
    (table.length = 256 * 2 →
      _crc16r data crc table = .ok (specReflUpdate 16 2 table data crc)) ∧
    (table.length = 256 * 4 → crc < 2^24 →
      _crc24r data crc table = .ok (specReflUpdate 32 4 table data crc)) ∧
    (table.length = 256 * 4 →
      _crc32r data crc table = .ok (specReflUpdate 32 4 table data crc)) ∧
    (table.length = 256 * 8 →
      _crc64r data crc table = .ok (specReflUpdate 64 8 table data crc)) := by
  refine ⟨fun h => ?_, fun h hc => ?_, fun h => ?_, fun h => ?_⟩
  · simp [_crc16r, h, specReflUpdate, crc16rstep_eq_specRefl]
  · have hc' : crc % 16777216 = crc := Nat.mod_eq_of_lt (by omega)
    simp [_crc24r, h, specReflUpdate, crc24rstep_eq_specRefl, hc']
  · simp [_crc32r, h, specReflUpdate, crc32rstep_eq_specRefl]
  · simp [_crc64r, h, specReflUpdate, crc64rstep_eq_specRefl]

/-- Witness for C2 at concrete inputs. -/
theorem crc_reflected_matches_spec_witness :
    _crc16r [1, 2] 5 (List.replicate 512 0) =
      .ok (specReflUpdate 16 2 (List.replicate 512 0) [1, 2] 5) ∧
    _crc24r [1, 2] 5 (List.replicate 1024 0) =
      .ok (specReflUpdate 32 4 (List.replicate 1024 0) [1, 2] 5) ∧
    _crc32r [1, 2] 5 (List.replicate 1024 0) =
      .ok (specReflUpdate 32 4 (List.replicate 1024 0) [1, 2] 5) ∧
    _crc64r [1, 2] 5 (List.replicate 2048 0) =
      .ok (specReflUpdate 64 8 (List.replicate 2048 0) [1, 2] 5) :=
  ⟨(crc_reflected_matches_spec [1, 2] (List.replicate 512 0) 5).1 (by rw [List.length_replicate]),
   (crc_reflected_matches_spec [1, 2] (List.replicate 1024 0) 5).2.1 (by rw [List.length_replicate])
     (by norm_num),
   (crc_reflected_matches_spec [1, 2] (List.replicate 1024 0) 5).2.2.1 (by rw [List.length_replicate]),
   (crc_reflected_matches_spec [1, 2] (List.replicate 2048 0) 5).2.2.2 (by rw [List.length_replicate])⟩

/-- Claim C4: every one of the ten entry points, given a table whose byte
length differs from `256 * entry_byte_size(width)`, fails with the error
message "invalid CRC table" and returns no register value. -/
theorem crc_invalid_table_rejected (data table : List Nat) (crc : Nat) :
    (table.length ≠ 256 → _crc8 data crc table = .error "invalid CRC table") ∧
    (table.length ≠ 256 → _crc8r data crc table = .error "invalid CRC table") ∧
    (table.length ≠ 256 * 2 → _crc16 data crc table = .error "invalid CRC table") ∧
    (table.length ≠ 256 * 2 → _crc16r data crc table = .error "invalid CRC table") ∧
    (table.length ≠ 256 * 4 → _crc24 data crc table = .error "invalid CRC table") ∧
    (table.length ≠ 256 * 4 → _crc24r data crc table = .error "invalid CRC table") ∧
    (table.length ≠ 256 * 4 → _crc32 data crc table = .error "invalid CRC table") ∧
    (table.length ≠ 256 * 4 → _crc32r data crc table = .error "invalid CRC table") ∧
    (table.length ≠ 256 * 8 → _crc64 data crc table = .error "invalid CRC table") ∧
    (table.length ≠ 256 * 8 → _crc64r data crc table = .error "invalid CRC table") := by
  refine ⟨fun h => ?_, fun h => ?_, fun h => ?_, fun h => ?_, fun h => ?_,
    fun h => ?_, fun h => ?_, fun h => ?_, fun h => ?_, fun h => ?_⟩ <;>
    simp [_crc8, _crc8r, _crc16, _crc16r, _crc24, _crc24r, _crc32, _crc32r,
      _crc64, _crc64r, h]

/-- Witness for C4 at the empty table, which has the wrong length for every
width. -/
theorem crc_invalid_table_rejected_witness :
    _crc8 [] 0 [] = .error "invalid CRC table" ∧
    _crc8r [] 0 [] = .error "invalid CRC table" ∧
    _crc16 [] 0 [] = .error "invalid CRC table" ∧
    _crc16r [] 0 [] = .error "invalid CRC table" ∧
    _crc24 [] 0 [] = .error "invalid CRC table" ∧
    _crc24r [] 0 [] = .error "invalid CRC table" ∧
    _crc32 [] 0 [] = .error "invalid CRC table" ∧
    _crc32r [] 0 [] = .error "invalid CRC table" ∧
    _crc64 [] 0 [] = .error "invalid CRC table" ∧
    _crc64r [] 0 [] = .error "invalid CRC table" := by
  have h := crc_invalid_table_rejected [] [] 0
  exact ⟨h.1 (by decide), h.2.1 (by decide), h.2.2.1 (by decide),
    h.2.2.2.1 (by decide), h.2.2.2.2.1 (by decide), h.2.2.2.2.2.1 (by decide),
    h.2.2.2.2.2.2.1 (by decide), h.2.2.2.2.2.2.2.1 (by decide),
    h.2.2.2.2.2.2.2.2.1 (by decide), h.2.2.2.2.2.2.2.2.2 (by decide)⟩

/-- Claim C6: for width 8 the normal and reflected entry points compute the
same function of (input, initial register, table): the source loops are
identical. -/
theorem crc8_normal_eq_reflected (data table : List Nat) (crc : Nat) :
    _crc8 data crc table = _crc8r data crc table := rfl

/-- Claim C7: with a table of the valid length, every entry point returns the
initial register unchanged on a zero-length input. -/
theorem crc_empty_input_identity (table : List Nat) (crc : Nat) :
    (table.length = 256 → _crc8 [] crc table = .ok crc) ∧
    (table.length = 256 → _crc8r [] crc table = .ok crc) ∧
    (table.length = 256 * 2 → _crc16 [] crc table = .ok crc) ∧
    (table.length = 256 * 2 → _crc16r [] crc table = .ok crc) ∧
    (table.length = 256 * 4 → crc < 2^24 → _crc24 [] crc table = .ok crc) ∧
    (table.length = 256 * 4 → crc < 2^24 → _crc24r [] crc table = .ok crc) ∧
    (table.length = 256 * 4 → _crc32 [] crc table = .ok crc) ∧
    (table.length = 256 * 4 → _crc32r [] crc table = .ok crc) ∧
    (table.length = 256 * 8 → _crc64 [] crc table = .ok crc) ∧
    (table.length = 256 * 8 → _crc64r [] crc table = .ok crc) := by
  refine ⟨fun h => ?_, fun h => ?_, fun h => ?_, fun h => ?_, fun h hc => ?_,
    fun h hc => ?_, fun h => ?_, fun h => ?_, fun h => ?_, fun h => ?_⟩ <;>
    simp [_crc8, _crc8r, _crc16, _crc16r, _crc24, _crc24r, _crc32, _crc32r,
      _crc64, _crc64r, h, crcLoop] <;>
    omega

/-- Witness for C7 at concrete inputs. -/
theorem crc_empty_input_identity_witness :
    _crc8 [] 7 (List.replicate 256 0) = .ok 7 ∧
    _crc8r [] 7 (List.replicate 256 0) = .ok 7 ∧
    _crc16 [] 7 (List.replicate 512 0) = .ok 7 ∧
    _crc16r [] 7 (List.replicate 512 0) = .ok 7 ∧
    _crc24 [] 7 (List.replicate 1024 0) = .ok 7 ∧
    _crc24r [] 7 (List.replicate 1024 0) = .ok 7 ∧
    _crc32 [] 7 (List.replicate 1024 0) = .ok 7 ∧
    _crc32r [] 7 (List.replicate 1024 0) = .ok 7 ∧
    _crc64 [] 7 (List.replicate 2048 0) = .ok 7 ∧
    _crc64r [] 7 (List.replicate 2048 0) = .ok 7 := by
  have h8 := crc_empty_input_identity (List.replicate 256 0) 7
  have h16 := crc_empty_input_identity (List.replicate 512 0) 7
  have h32 := crc_empty_input_identity (List.replicate 1024 0) 7
  have h64 := crc_empty_input_identity (List.replicate 2048 0) 7
  exact ⟨h8.1 (by rw [List.length_replicate]),
    h8.2.1 (by rw [List.length_replicate]),
    h16.2.2.1 (by rw [List.length_replicate]),
    h16.2.2.2.1 (by rw [List.length_replicate]),
    h32.2.2.2.2.1 (by rw [List.length_replicate]) (by norm_num),
    h32.2.2.2.2.2.1 (by rw [List.length_replicate]) (by norm_num),
    h32.2.2.2.2.2.2.1 (by rw [List.length_replicate]),
    h32.2.2.2.2.2.2.2.1 (by rw [List.length_replicate]),
    h64.2.2.2.2.2.2.2.2.1 (by rw [List.length_replicate]),
    h64.2.2.2.2.2.2.2.2.2 (by rw [List.length_replicate])⟩

/-- Claim C8: the shared update loop is total and performs exactly one
iteration per input byte: the instrumented loop returns the same register as
`crcLoop` together with an iteration count equal to the input length. -/
theorem crc_loop_iteration_count (step : Nat → Nat → Nat) (data : List Nat)
    (crc : Nat) :
    crcLoopCount step data crc = (crcLoop step data crc, data.length) := by
  induction data generalizing crc with
  | nil => rfl
  | cons b rest ih => simp [crcLoopCount, crcLoop, ih]

theorem BYTE0_lt (x : Nat) : BYTE0 x < 256 := Nat.mod_lt _ (by norm_num)

theorem BYTE1_lt (x : Nat) : BYTE1 x < 256 := Nat.mod_lt _ (by norm_num)

theorem BYTE2_lt (x : Nat) : BYTE2 x < 256 := Nat.mod_lt _ (by norm_num)

theorem BYTE3_lt (x : Nat) : BYTE3 x < 256 := Nat.mod_lt _ (by norm_num)

theorem BYTE7_lt (x : Nat) : BYTE7 x < 256 := Nat.mod_lt _ (by norm_num)

theorem idx_xor_lt {b m : Nat} (hb : b < 256) (hm : m < 256) : b ^^^ m < 256 := by
  have h2 : (256:Nat) = 2^8 := by norm_num
  rw [h2] at hb hm ⊢
  exact Nat.xor_lt_two_pow hb hm

theorem tblAt1_lt (t : List Nat) (i : Nat) : tblAt 1 t i < 256 := by
  have h := tblAt_lt 1 t i
  norm_num at h
  exact h

theorem crcLoopIdx_lt_of_byte (step : Nat → Nat → Nat) (f : Nat → Nat)
    (hf : ∀ c, f c < 256) :
    ∀ (data : List Nat) (crc : Nat), (∀ b ∈ data, b < 256) →
      ∀ i ∈ crcLoopIdx step (fun c b => b ^^^ f c) data crc, i < 256 := by
  intro data
  induction data with
  | nil => intro crc _ i hi; simp [crcLoopIdx] at hi
  | cons b rest ih =>
    intro crc hd i hi
    simp only [crcLoopIdx, List.mem_cons] at hi
    rcases hi with rfl | hi
    · exact idx_xor_lt (hd b (by simp)) (hf crc)
    · exact ih _ (fun x hx => hd x (by simp [hx])) i hi

theorem crcLoopIdx8_lt (table : List Nat) :
    ∀ (data : List Nat) (crc : Nat), crc < 256 → (∀ b ∈ data, b < 256) →
      ∀ i ∈ crcLoopIdx (crc8step table) crc8idx data crc, i < 256 := by
  intro data
  induction data with
  | nil => intro crc _ _ i hi; simp [crcLoopIdx] at hi
  | cons b rest ih =>
    intro crc hc hd i hi
    simp only [crcLoopIdx, List.mem_cons] at hi
    rcases hi with rfl | hi
    · rw [crc8idx]
      exact idx_xor_lt (hd b (by simp)) hc
    · refine ih (crc8step table crc b) ?_ (fun x hx => hd x (by simp [hx])) i hi
      rw [crc8step]
      exact tblAt1_lt _ _

theorem crcLoopIdx8r_lt (table : List Nat) :
    ∀ (data : List Nat) (crc : Nat), crc < 256 → (∀ b ∈ data, b < 256) →
      ∀ i ∈ crcLoopIdx (crc8rstep table) crc8ridx data crc, i < 256 := by
  intro data
  induction data with
  | nil => intro crc _ _ i hi; simp [crcLoopIdx] at hi
  | cons b rest ih =>
    intro crc hc hd i hi
    simp only [crcLoopIdx, List.mem_cons] at hi
    rcases hi with rfl | hi
    · rw [crc8ridx]
      exact idx_xor_lt (hd b (by simp)) hc
    · refine ih (crc8rstep table crc b) ?_ (fun x hx => hd x (by simp [hx])) i hi
      rw [crc8rstep]
      exact tblAt1_lt _ _

/-- Claim C9: in every variant, every table index computed by the update loop
is in [0, 255] - each index is the 8-bit XOR of an input byte with an 8-bit
byte extracted from the register - so no lookup reads outside a 256-entry
table.  For the 8-bit variants the register itself is the index byte, so the
initial register must be a byte; every later register value is a table byte. -/
theorem crc_table_index_in_range (table data : List Nat) (crc : Nat)
    (hdata : ∀ b ∈ data, b < 256) :
    (crc < 256 → ∀ i ∈ crcLoopIdx (crc8step table) crc8idx data crc, i < 256) ∧
    (crc < 256 → ∀ i ∈ crcLoopIdx (crc8rstep table) crc8ridx data crc, i < 256) ∧
    (∀ i ∈ crcLoopIdx (crc16step table) crc16idx data crc, i < 256) ∧
    (∀ i ∈ crcLoopIdx (crc16rstep table) crc16ridx data crc, i < 256) ∧
    (∀ i ∈ crcLoopIdx (crc24step table) crc24idx data crc, i < 256) ∧
    (∀ i ∈ crcLoopIdx (crc24rstep table) crc24ridx data crc, i < 256) ∧
    (∀ i ∈ crcLoopIdx (crc32step table) crc32idx data crc, i < 256) ∧
    (∀ i ∈ crcLoopIdx (crc32rstep table) crc32ridx data crc, i < 256) ∧
    (∀ i ∈ crcLoopIdx (crc64step table) crc64idx data crc, i < 256) ∧
    (∀ i ∈ crcLoopIdx (crc64rstep table) crc64ridx data crc, i < 256) := by
  refine ⟨fun hc => crcLoopIdx8_lt table data crc hc hdata,
    fun hc => crcLoopIdx8r_lt table data crc hc hdata, ?_, ?_, ?_, ?_, ?_, ?_, ?_, ?_⟩
  · have h : crc16idx = fun c b => b ^^^ BYTE1 c := rfl
    rw [h]; exact crcLoopIdx_lt_of_byte _ _ BYTE1_lt data crc hdata
  · have h : crc16ridx = fun c b => b ^^^ BYTE0 c := rfl
    rw [h]; exact crcLoopIdx_lt_of_byte _ _ BYTE0_lt data crc hdata
  · have h : crc24idx = fun c b => b ^^^ BYTE2 c := rfl
    rw [h]; exact crcLoopIdx_lt_of_byte _ _ BYTE2_lt data crc hdata
  · have h : crc24ridx = fun c b => b ^^^ BYTE0 c := rfl
    rw [h]; exact crcLoopIdx_lt_of_byte _ _ BYTE0_lt data crc hdata
  · have h : crc32idx = fun c b => b ^^^ BYTE3 c := rfl
    rw [h]; exact crcLoopIdx_lt_of_byte _ _ BYTE3_lt data crc hdata
  · have h : crc32ridx = fun c b => b ^^^ BYTE0 c := rfl
    rw [h]; exact crcLoopIdx_lt_of_byte _ _ BYTE0_lt data crc hdata
  · have h : crc64idx = fun c b => b ^^^ BYTE7 c := rfl
    rw [h]; exact crcLoopIdx_lt_of_byte _ _ BYTE7_lt data crc hdata
  · have h : crc64ridx = fun c b => b ^^^ BYTE0 c := rfl
    rw [h]; exact crcLoopIdx_lt_of_byte _ _ BYTE0_lt data crc hdata

/-- Witness for C9 at concrete inputs. -/
theorem crc_table_index_in_range_witness :
    (∀ i ∈ crcLoopIdx (crc8step []) crc8idx [1, 2] 3, i < 256) ∧
    (∀ i ∈ crcLoopIdx (crc8rstep []) crc8ridx [1, 2] 3, i < 256) ∧
    (∀ i ∈ crcLoopIdx (crc16step []) crc16idx [1, 2] 3, i < 256) ∧
    (∀ i ∈ crcLoopIdx (crc16rstep []) crc16ridx [1, 2] 3, i < 256) ∧
    (∀ i ∈ crcLoopIdx (crc24step []) crc24idx [1, 2] 3, i < 256) ∧
    (∀ i ∈ crcLoopIdx (crc24rstep []) crc24ridx [1, 2] 3, i < 256) ∧
    (∀ i ∈ crcLoopIdx (crc32step []) crc32idx [1, 2] 3, i < 256) ∧
    (∀ i ∈ crcLoopIdx (crc32rstep []) crc32ridx [1, 2] 3, i < 256) ∧
    (∀ i ∈ crcLoopIdx (crc64step []) crc64idx [1, 2] 3, i < 256) ∧
    (∀ i ∈ crcLoopIdx (crc64rstep []) crc64ridx [1, 2] 3, i < 256) := by
  have h := crc_table_index_in_range [] [1, 2] 3 (by decide)
  exact ⟨h.1 (by norm_num), h.2.1 (by norm_num), h.2.2.1, h.2.2.2.1,
    h.2.2.2.2.1, h.2.2.2.2.2.1, h.2.2.2.2.2.2.1, h.2.2.2.2.2.2.2.1,
    h.2.2.2.2.2.2.2.2.1, h.2.2.2.2.2.2.2.2.2⟩

/-- Claim C10: the 24-bit normal-order entry point depends only on the low 24
bits of the initial register: two 32-bit initial registers agreeing on bits
0-23 give equal results for the same table and input. -/
theorem crc24_ignores_high_carrier_bits (data table : List Nat) (crc crc' : Nat)
    (h1 : crc < 2^32) (h2 : crc' < 2^32) (h : crc % 2^24 = crc' % 2^24) :
    _crc24 data crc table = _crc24 data crc' table := by
  by_cases hl : table.length ≠ 256 * 4
  · simp [_crc24, hl]
  · simp only [_crc24, if_neg hl]
    exact congrArg Except.ok (crc24loop_mod table data crc crc' h)

/-- Witness for C10: registers 0x1000005 and 5 agree on bits 0-23. -/
theorem crc24_ignores_high_carrier_bits_witness :
    _crc24 [9] (2^24 + 5) (List.replicate 1024 0) =
      _crc24 [9] 5 (List.replicate 1024 0) :=
  crc24_ignores_high_carrier_bits [9] (List.replicate 1024 0) (2^24 + 5) 5
    (by norm_num) (by norm_num) (by decide)

set_option maxRecDepth 40000 in
/-- Counterexample to claim C3 as stated: with the valid-length table
`badTable`, whose 32-bit entry 0 has a nonzero high byte, feeding the 24-bit
reflected variant the two chunks `[0]` and `[0]` gives `0x01000000`, while
feeding the concatenation `[0, 0]` in one call gives `0x01010000`. -/
theorem crc24r_chunking_counterexample :
    (_crc24r [0] 0 badTable).bind (fun r => _crc24r [0] r badTable) =
      .ok 16777216 ∧
    _crc24r ([0] ++ [0]) 0 badTable = .ok 16842752 ∧
    (16777216 : Nat) ≠ 16842752 := by
  refine ⟨by rfl, by rfl, by norm_num⟩

/-- Claim C3 (amended): updating with chunk A and then with chunk B equals
updating with the concatenation A ++ B, for every width/order variant and
every initial register; for the 24-bit reflected variant this holds provided
every 32-bit table entry has its top 8 bits zero (as the table contract
prescribes), the counterexample above showing it can fail otherwise. -/
theorem crc_chunking_invariance (A B table : List Nat) (crc : Nat) :
    (_crc8 (A ++ B) crc table =
      (_crc8 A crc table).bind fun r => _crc8 B r table) ∧
    (_crc8r (A ++ B) crc table =
      (_crc8r A crc table).bind fun r => _crc8r B r table) ∧
    (_crc16 (A ++ B) crc table =
      (_crc16 A crc table).bind fun r => _crc16 B r table) ∧
    (_crc16r (A ++ B) crc table =
      (_crc16r A crc table).bind fun r => _crc16r B r table) ∧
    (_crc24 (A ++ B) crc table =
      (_crc24 A crc table).bind fun r => _crc24 B r table) ∧
    ((∀ i, tblAt 4 table i < 2^24) →
      _crc24r (A ++ B) crc table =
        (_crc24r A crc table).bind fun r => _crc24r B r table) ∧
    (_crc32 (A ++ B) crc table =
      (_crc32 A crc table).bind fun r => _crc32 B r table) ∧
    (_crc32r (A ++ B) crc table =
      (_crc32r A crc table).bind fun r => _crc32r B r table) ∧
    (_crc64 (A ++ B) crc table =
      (_crc64 A crc table).bind fun r => _crc64 B r table) ∧
    (_crc64r (A ++ B) crc table =
      (_crc64r A crc table).bind fun r => _crc64r B r table) := by
  refine ⟨?_, ?_, ?_, ?_, ?_, fun hT => ?_, ?_, ?_, ?_, ?_⟩
  · by_cases hl : table.length = 256
    · simp [_crc8, hl, crcLoop_append, except_bind_ok]
    · simp [_crc8, hl, except_bind_error]
  · by_cases hl : table.length = 256
    · simp [_crc8r, hl, crcLoop_append, except_bind_ok]
    · simp [_crc8r, hl, except_bind_error]
  · by_cases hl : table.length = 256 * 2
    · simp [_crc16, hl, crcLoop_append, except_bind_ok]
    · simp [_crc16, hl, except_bind_error]
  · by_cases hl : table.length = 256 * 2
    · simp [_crc16r, hl, crcLoop_append, except_bind_ok]
    · simp [_crc16r, hl, except_bind_error]
  · by_cases hl : table.length = 256 * 4
    · have hne : ¬(table.length ≠ 256 * 4) := by simp [hl]
      simp only [_crc24, if_neg hne, crcLoop_append, except_bind_ok]
      exact congrArg Except.ok
        (crc24loop_mod table B _ _ (Nat.mod_mod_of_dvd _ dvd_rfl).symm)
    · simp [_crc24, hl, except_bind_error]
  · by_cases hl : table.length = 256 * 4
    · have hne : ¬(table.length ≠ 256 * 4) := by simp [hl]
      simp only [_crc24r, if_neg hne, crcLoop_append, except_bind_ok]
      have hr : crcLoop (crc24rstep table) A (crc % 2^24) < 2^24 :=
        crc24rloop_lt table hT A _ (Nat.mod_lt _ (by norm_num))
      rw [Nat.mod_eq_of_lt hr]
    · simp [_crc24r, hl, except_bind_error]
  · by_cases hl : table.length = 256 * 4
    · simp [_crc32, hl, crcLoop_append, except_bind_ok]
    · simp [_crc32, hl, except_bind_error]
  · by_cases hl : table.length = 256 * 4
    · simp [_crc32r, hl, crcLoop_append, except_bind_ok]
    · simp [_crc32r, hl, except_bind_error]
  · by_cases hl : table.length = 256 * 8
    · simp [_crc64, hl, crcLoop_append, except_bind_ok]
    · simp [_crc64, hl, except_bind_error]
  · by_cases hl : table.length = 256 * 8
    · simp [_crc64r, hl, crcLoop_append, except_bind_ok]
    · simp [_crc64r, hl, except_bind_error]

/-- Witness for C3 at concrete inputs, with the all-zero valid-length table
for the 24-bit reflected conjunct. -/
theorem crc_chunking_invariance_witness :
    _crc24r ([1] ++ [2]) 7 (List.replicate 1024 0) =
      (_crc24r [1] 7 (List.replicate 1024 0)).bind
        (fun r => _crc24r [2] r (List.replicate 1024 0)) :=
  (crc_chunking_invariance [1] [2] (List.replicate 1024 0) 7).2.2.2.2.2.1
    (fun i => by rw [tblAt_replicate_zero]; norm_num)

set_option maxRecDepth 40000 in
/-- Counterexample to claim C5 as stated: with the valid-length table
`badTable`, whose 32-bit entry 0 has a nonzero high byte, the 24-bit
reflected variant returns `0x01000000 > 0xFFFFFF`. -/
theorem crc24r_exceeds_mask_counterexample :
    _crc24r [0] 0 badTable = .ok 16777216 ∧ ¬((16777216 : Nat) ≤ 0xFFFFFF) :=
  ⟨by rfl, by norm_num⟩

/-- Claim C5 (amended): the 24-bit normal-order variant always returns a
value in [0, 0xFFFFFF]; the 24-bit reflected variant does so provided every
32-bit table entry has its top 8 bits zero (as the table contract
prescribes), the counterexample above showing it can exceed the mask
otherwise. -/
theorem crc24_result_in_range (data table : List Nat) (crc : Nat) :
    (∀ r, _crc24 data crc table = .ok r → r ≤ 0xFFFFFF) ∧
    ((∀ i, tblAt 4 table i < 2^24) →
      ∀ r, _crc24r data crc table = .ok r → r ≤ 0xFFFFFF) := by
  constructor
  · intro r hr
    by_cases hl : table.length = 256 * 4
    · have hne : ¬(table.length ≠ 256 * 4) := by simp [hl]
      simp only [_crc24, if_neg hne, Except.ok.injEq] at hr
      omega
    · simp [_crc24, hl] at hr
  · intro hT r hr
    by_cases hl : table.length = 256 * 4
    · have hne : ¬(table.length ≠ 256 * 4) := by simp [hl]
      simp only [_crc24r, if_neg hne, Except.ok.injEq] at hr
      have hlt : crcLoop (crc24rstep table) data (crc % 2^24) < 2^24 :=
        crc24rloop_lt table hT data _ (Nat.mod_lt _ (by norm_num))
      omega
    · simp [_crc24r, hl] at hr

set_option maxRecDepth 40000 in
/-- Witness for C5 at concrete inputs with the all-zero valid-length table. -/
theorem crc24_result_in_range_witness :
    (1280 : Nat) ≤ 0xFFFFFF ∧ (0 : Nat) ≤ 0xFFFFFF :=
  ⟨(crc24_result_in_range [3] (List.replicate 1024 0) 5).1 1280 (by rfl),
   (crc24_result_in_range [3] (List.replicate 1024 0) 5).2
     (fun i => by rw [tblAt_replicate_zero]; norm_num) 0 (by rfl)⟩
